import Mathlib

/-!
Verification of the approval-gated document mutation subsystem of an
LLM document-editing agent.  The Python sources are shallowly embedded:
dataclasses become structures, in-place mutation becomes explicit state
passing, raised exceptions become `Except.error`, and dynamically typed
cell values become the `PyVal` inductive with Python truthiness and
`str` rendering.  The SHA-256 fingerprint of `ApprovalTracker.fingerprint`
is embedded as the NUL-separated field serialization that the source
feeds to the hasher: equal serializations give equal digests, and every
claim uses fingerprint equality positively, so no property of the hash
beyond determinism is needed.
-/

/-- Dynamically typed Python value, covering the shapes the operations
carry in `old_value` / `new_value` (`None`, booleans, ints, strings and
nested lists of rows). -/
inductive PyVal where
  | vnone : PyVal
  | vbool : Bool → PyVal
  | vint : Int → PyVal
  | vstr : String → PyVal
  | vlist : List PyVal → PyVal

/-- Python truthiness: `None`, `False`, `0`, `""` and `[]` are falsy. -/
def PyVal.truthy : PyVal → Bool
  | .vnone => false
  | .vbool b => b
  | .vint n => n != 0
  | .vstr s => s != ""
  | .vlist xs => !xs.isEmpty

mutual

/-- Python `repr` of a value (what `str` shows inside a list). -/
def PyVal.pyRepr : PyVal → String
  | .vnone => "None"
  | .vbool true => "True"
  | .vbool false => "False"
  | .vint n => toString n
  | .vstr s => "\x27" ++ s ++ "\x27"
  | .vlist xs => "[" ++ String.intercalate ", " (PyVal.pyReprList xs) ++ "]"

/-- `repr` of each element of a list of values. -/
def PyVal.pyReprList : List PyVal → List String
  | [] => []
  | x :: xs => PyVal.pyRepr x :: PyVal.pyReprList xs

end

/-- The numeric value Python uses when comparing a `bool` with an `int`
(`True == 1`, `False == 0`). -/
def PyVal.boolInt (b : Bool) : Int := if b then 1 else 0

mutual

/-- Python `==` on values: numeric cross-type equality between `bool`
and `int`, structural equality on lists, distinct otherwise. -/
def PyVal.pyEqb : PyVal → PyVal → Bool
  | .vnone, .vnone => true
  | .vbool a, .vbool b => a == b
  | .vbool a, .vint b => PyVal.boolInt a == b
  | .vint a, .vbool b => a == PyVal.boolInt b
  | .vint a, .vint b => a == b
  | .vstr a, .vstr b => a == b
  | .vlist a, .vlist b => PyVal.pyEqbList a b
  | _, _ => false

/-- Elementwise Python `==` on lists of values. -/
def PyVal.pyEqbList : List PyVal → List PyVal → Bool
  | [], [] => true
  | x :: xs, y :: ys => PyVal.pyEqb x y && PyVal.pyEqbList xs ys
  | _, _ => false

end

/-- Python `str` of a value: a string renders as itself, everything else
as its `repr`. -/
def PyVal.pyStr : PyVal → String
  | .vstr s => s
  | v => v.pyRepr

/-- Python `a or b`. -/
def PyVal.pyOr (a b : PyVal) : PyVal := if a.truthy then a else b

/-- `OperationType` enum from `src/agent/editors/base.py`. -/
inductive OperationType where
  | docxReplaceText
  | docxInsertText
  | docxDeleteText
  | docxAddComment
  | docxAcceptChanges
  | xlsxWriteCell
  | xlsxWriteRange
  | xlsxAddFormula
  | xlsxDeleteRow
  | xlsxDeleteColumn
  | xlsxInsertRow
  | xlsxInsertColumn
deriving DecidableEq, Repr

/-- The `.value` string of each enum member. -/
def OperationType.value : OperationType → String
  | .docxReplaceText => "docx_replace_text"
  | .docxInsertText => "docx_insert_text"
  | .docxDeleteText => "docx_delete_text"
  | .docxAddComment => "docx_add_comment"
  | .docxAcceptChanges => "docx_accept_changes"
  | .xlsxWriteCell => "xlsx_write_cell"
  | .xlsxWriteRange => "xlsx_write_range"
  | .xlsxAddFormula => "xlsx_add_formula"
  | .xlsxDeleteRow => "xlsx_delete_row"
  | .xlsxDeleteColumn => "xlsx_delete_column"
  | .xlsxInsertRow => "xlsx_insert_row"
  | .xlsxInsertColumn => "xlsx_insert_column"

/-- `DocumentOperation` dataclass from `src/agent/editors/base.py`.
`str | None` fields become `Option String`; the `Any` valued cell fields
become `PyVal` (Python `None` is `PyVal.vnone`). -/
structure DocumentOperation where
  type : OperationType
  path : String
  description : String := ""
  old_text : Option String := none
  new_text : Option String := none
  context_before : Option String := none
  context_after : Option String := none
  location : Option String := none
  sheet : Option String := none
  cell : Option String := none
  cell_range : Option String := none
  old_value : PyVal := .vnone
  new_value : PyVal := .vnone
  metadata : List (String × String) := []

/-- `OperationResult` dataclass from `src/agent/editors/base.py`. -/
structure OperationResult where
  success : Bool
  output : String
  path : Option String := none
  error : Option String := none
deriving DecidableEq, Repr

/-- Python `x or ""` for `x : str | None`: `None` and `""` both give `""`,
which coincides with `Option.getD ""`. -/
def optTextOrEmpty (o : Option String) : String := o.getD ""

/-- `ApprovalTracker.fingerprint` from `src/agent/editors/base.py`:
the NUL-separated serialization of
`(type.value, path, old_text or "", new_text or "", cell or "",
str(old_value or ""), str(new_value or ""))` that the source hashes with
SHA-256 (the digest of equal serializations is equal, which is all the
claims need). -/
def fingerprint (op : DocumentOperation) : String :=
  String.intercalate "\x00"
    [op.type.value, op.path,
     optTextOrEmpty op.old_text,
     optTextOrEmpty op.new_text,
     optTextOrEmpty op.cell,
     (op.old_value.pyOr (.vstr "")).pyStr,
     (op.new_value.pyOr (.vstr "")).pyStr]

/-- Membership-preserving `set.add` on a duplicate-free list model. -/
def setAdd (l : List String) (x : String) : List String :=
  if l.contains x then l else x :: l

/-- `set.discard`. -/
def setDiscard (l : List String) (x : String) : List String :=
  l.filter (fun y => y != x)

/-- `ApprovalTracker` state: the `_approved` and `_rejected` sets of
fingerprints, modelled as lists with set semantics. -/
structure ApprovalTracker where
  approved : List String := []
  rejected : List String := []
deriving DecidableEq, Repr

namespace ApprovalTracker

/-- `remember_approved`: add to approved, discard from rejected. -/
def rememberApproved (t : ApprovalTracker) (fp : String) : ApprovalTracker :=
  { approved := setAdd t.approved fp, rejected := setDiscard t.rejected fp }

/-- `remember_rejected`: add to rejected, discard from approved. -/
def rememberRejected (t : ApprovalTracker) (fp : String) : ApprovalTracker :=
  { rejected := setAdd t.rejected fp, approved := setDiscard t.approved fp }

/-- `is_approved`. -/
def isApproved (t : ApprovalTracker) (fp : String) : Bool :=
  t.approved.contains fp

/-- `is_rejected`. -/
def isRejected (t : ApprovalTracker) (fp : String) : Bool :=
  t.rejected.contains fp

/-- `clear`. -/
def clear (_t : ApprovalTracker) : ApprovalTracker := {}

end ApprovalTracker

/-- A `pathlib.Path`: absolute flag plus components. -/
structure PyPath where
  absolute : Bool
  components : List String
deriving DecidableEq, Repr

/-- Component normalization performed by `Path.resolve()`: `.` vanishes
and `..` removes the previous component (symbolic links are outside the
model; the workspace root is taken already resolved, as `__init__`
resolves it once). -/
def normalizeComponents (cs : List String) : List String :=
  cs.foldl (fun acc c =>
    if c == "." then acc
    else if c == ".." then acc.dropLast
    else acc ++ [c]) []

/-- `pre` is a prefix of `s` (`str.startswith`). -/
def strStartsWith (s pre : String) : Bool :=
  pre.toList.isPrefixOf s.toList

/-- Split a character list on `/`. -/
def splitSlash : List Char → List (List Char)
  | [] => [[]]
  | c :: rest =>
    let r := splitSlash rest
    if c == '/' then [] :: r
    else
      match r with
      | [] => [[c]]
      | g :: gs => (c :: g) :: gs

/-- The nonempty `/`-separated components of a path string. -/
def pathComponents (s : String) : List String :=
  ((splitSlash s.toList).map (fun cs => String.mk cs)).filter (fun c => c != "")

/-- Parse a path string into components. -/
def parsePyPath (s : String) : PyPath :=
  { absolute := strStartsWith s "/",
    components := pathComponents s }

/-- `DocumentEditor._resolve` from `src/agent/editors/base.py`: join a
relative path onto the root (absolute paths stand alone), resolve, and
raise `RuntimeError` — modelled as `Except.error` — when the result is
not under the root. -/
def resolvePath (root : List String) (relative : String) : Except String (List String) :=
  let candidate := parsePyPath relative
  let target := if candidate.absolute then candidate.components
    else root ++ candidate.components
  let resolved := normalizeComponents target
  if root.isPrefixOf resolved then .ok resolved
  else .error ("Operation outside workspace: " ++ relative)

/-- `DocumentEditor._relative_path`: resolve (letting the containment
error propagate), then express relative to the root; the source's
`ValueError` fallback returning the raw value is kept although
`_resolve` already guarantees containment. -/
def relativePath (root : List String) (value : String) : Except String String := do
  let resolved ← resolvePath root value
  if root.isPrefixOf resolved then
    pure (String.intercalate "/" (resolved.drop root.length))
  else
    pure value

/-- Whitespace for Python `str.strip`. -/
def isPySpace (c : Char) : Bool :=
  c == ' ' || c == '\t' || c == '\n' || c == '\r' || c == '\x0b' || c == '\x0c'

/-- Python `str.strip()`. -/
def pyStrip (s : String) : String :=
  String.mk (((s.toList.dropWhile isPySpace).reverse.dropWhile isPySpace).reverse)

/-- Python `str.lower()` (ASCII suffices for the y/n answers). -/
def pyLower (s : String) : String :=
  String.mk (s.toList.map Char.toLower)

/-- Answer read from an interactive prompt, put through
`answer.strip().lower() in {"y", "yes"}`; `none` models `EOFError` or
`KeyboardInterrupt`, which the source treats as rejection. -/
def promptYes (answer : Option String) : Bool :=
  match answer with
  | none => false
  | some a => pyLower (pyStrip a) == "y" || pyLower (pyStrip a) == "yes"

/-- The approval surfaces of `src/agent/approval_dialog.py`, as seen by
one `request_approval` call: which global UI slot is set and how the
interaction would come out. -/
inductive ChannelEnv where
  /-- `set_terminal_approval_mode` active: `terminal_diff_approval`
  prints the diff and reads one line. -/
  | terminalConsole (answer : Option String)
  /-- A Textual app is registered. `dispatchOk = false` models
  `call_from_thread` raising, which clears the pending request and falls
  back to the plain prompt; `signal = some r` means the dialog resolved
  the request with `result = r` before the 300 s timeout, and
  `signal = none` means the wait expired with `result` still `None`. -/
  | textualApp (dispatchOk : Bool) (signal : Option Bool) (fallbackAnswer : Option String)
  /-- No UI registered: plain terminal fallback. -/
  | noUi (answer : Option String)
deriving DecidableEq, Repr

/-- `request_approval` from `src/agent/approval_dialog.py`. On timeout
`request.result` is still `None`, so the final
`request.result if request.result is not None else False` yields
`False`. -/
def requestApprovalChannel (env : ChannelEnv) : Bool :=
  match env with
  | .terminalConsole ans => promptYes ans
  | .noUi ans => promptYes ans
  | .textualApp dispatchOk signal fallback =>
    if !dispatchOk then promptYes fallback
    else
      match signal with
      | none => false
      | some r => r

/-- Environment of `DocumentEditor._request_approval`: whether
`enable_ui_approval` has been called (so `get_approval_callback` returns
the channel callback), the channel state, and the answer the stdin
fallback would read. -/
structure ApprovalEnv where
  callbackEnabled : Bool
  channel : ChannelEnv
  stdinAnswer : Option String
deriving DecidableEq, Repr

/-- Observable calls made during `execute`, for stating that a path
performed no diff rendering, no Decision Channel submission, no stdin
prompt, or no physical write. -/
inductive Ev where
  | renderDiff
  | submitCall
  | stdinPrompt
  | applyCall
deriving DecidableEq, Repr

/-- `DocumentEditor._request_approval`: with the callback enabled it
renders the diff and submits through the channel; otherwise it renders
the diff panel and reads stdin. -/
def requestApprovalEditor (env : ApprovalEnv) : Bool × List Ev :=
  if env.callbackEnabled then
    (requestApprovalChannel env.channel, [.renderDiff, .submitCall])
  else
    (promptYes env.stdinAnswer, [.renderDiff, .stdinPrompt])

/-- The apply step of `execute`: `apply_operation` either returns a
result (whose `path` is overwritten with the relative path) or raises,
which `execute` converts to a failure result. -/
def applyPhase (relPath : String) (t : ApprovalTracker) (tr : List Ev)
    (applyResult : Except String OperationResult) :
    Except String OperationResult × ApprovalTracker × List Ev :=
  match applyResult with
  | .ok r => (.ok { r with path := some relPath }, t, tr ++ [.applyCall])
  | .error e =>
      (.ok { success := false, output := "Failed to apply operation: " ++ e,
             path := some relPath, error := some e }, t, tr ++ [.applyCall])

/-- `DocumentEditor.execute` from `src/agent/editors/base.py`.
`_relative_path` runs first and its containment `RuntimeError`
propagates (`Except.error`); then the rejection check, the
auto-approve / prior-approval check, the prompt, and the guarded apply
step. `applyResult` stands for what the format-specific
`apply_operation` would do. -/
def execute (root : List String) (autoApprove : Bool) (env : ApprovalEnv)
    (applyResult : Except String OperationResult)
    (t : ApprovalTracker) (op : DocumentOperation) :
    Except String OperationResult × ApprovalTracker × List Ev :=
  match relativePath root op.path with
  | .error e => (.error e, t, [])
  | .ok relPath =>
    let fp := fingerprint op
    if t.isRejected fp then
      (.ok { success := false, output := "Operation was previously rejected.",
             path := some relPath }, t, [])
    else if !autoApprove && !(t.isApproved fp) then
      let (approvedNow, promptTrace) := requestApprovalEditor env
      if approvedNow then
        applyPhase relPath (t.rememberApproved fp) promptTrace applyResult
      else
        (.ok { success := false, output := "Operation rejected by user.",
               path := some relPath }, t.rememberRejected fp, promptTrace)
    else
      applyPhase relPath (t.rememberApproved fp) [] applyResult

/-- Python `needle in hay` on the character lists of two strings
(the empty needle is contained in everything). -/
def listInfixOf (needle : List Char) : List Char → Bool
  | [] => needle.isEmpty
  | c :: rest => needle.isPrefixOf (c :: rest) || listInfixOf needle rest

/-- Python substring containment `needle in hay`. -/
def pyIn (needle hay : String) : Bool :=
  listInfixOf needle.toList hay.toList

/-- Python `s.replace("", new)`: the replacement is interleaved at every
position, including both ends. -/
def interleaveRepl (new : List Char) : List Char → List Char
  | [] => new
  | c :: cs => new ++ c :: interleaveRepl new cs

/-- Left-to-right non-overlapping replacement of a nonempty pattern. -/
def replaceCore (old new : List Char) (h : 0 < old.length) : List Char → List Char
  | [] => []
  | c :: rest =>
    if old.isPrefixOf (c :: rest) then
      new ++ replaceCore old new h (rest.drop (old.length - 1))
    else
      c :: replaceCore old new h rest
termination_by l => l.length
decreasing_by
  · simp only [List.length_drop, List.length_cons]
    omega
  · simp

/-- Python `s.replace(old, new)`. -/
def pyReplace (s old new : String) : String :=
  match old.toList with
  | [] => String.mk (interleaveRepl new.toList s.toList)
  | c :: cs => String.mk (replaceCore (c :: cs) new.toList (by simp) s.toList)

/-- First `n` characters of a string (Python `s[:n]`). -/
def takeChars (s : String) (n : Nat) : String :=
  String.mk (s.toList.take n)

/-- A `python-docx` document: body paragraphs (each a list of run
texts, `para.text` being their concatenation) and tables
(table → rows → cells → paragraphs). -/
structure DocxDocument where
  paragraphs : List (List String)
  tables : List (List (List (List (List String))))

/-- The run-level pass of `_replace_text`: replace inside every run that
contains the pattern, counting the runs touched. -/
def runPass (old new : String) (runs : List String) : List String × Nat :=
  runs.foldl
    (fun acc r =>
      if pyIn old r then (acc.1 ++ [pyReplace r old new], acc.2 + 1)
      else (acc.1 ++ [r], acc.2))
    ([], 0)

/-- One body paragraph of `_replace_text`: the run-level pass, then —
only while the global count is still zero — the whole-paragraph rebuild
that clears the tail runs and writes the replaced text into the first
run. `count` is the global `replacements` accumulator. -/
def processPara (old new : String) (count : Nat) (runs : List String) :
    List String × Nat :=
  if pyIn old (String.join runs) then
    let p := runPass old new runs
    let count1 := count + p.2
    if count1 == 0 && pyIn old (String.join p.1) then
      let fullText := String.join p.1
      if pyIn old fullText then
        let newFull := pyReplace fullText old new
        let runs2 := match p.1 with
          | [] => []
          | _r0 :: rest => newFull :: rest.map (fun _ => "")
        (runs2, count1 + 1)
      else (p.1, count1)
    else (p.1, count1)
  else (runs, count)

/-- One table-cell paragraph of `_replace_text`: run-level replacement
only, no whole-paragraph fallback. -/
def processParaTable (old new : String) (count : Nat) (runs : List String) :
    List String × Nat :=
  if pyIn old (String.join runs) then
    let p := runPass old new runs
    (p.1, count + p.2)
  else (runs, count)

/-- Fold a paragraph processor over a list of paragraphs, threading the
global replacement count. -/
def processParas (f : Nat → List String → List String × Nat)
    (ps : List (List String)) (count : Nat) : List (List String) × Nat :=
  ps.foldl (fun acc p =>
    let q := f acc.2 p
    (acc.1 ++ [q.1], q.2)) ([], count)

/-- The table walk of `_replace_text`. -/
def processTables (old new : String)
    (ts : List (List (List (List (List String))))) (count : Nat) :
    List (List (List (List (List String)))) × Nat :=
  ts.foldl (fun accT table =>
    let rowsOut := table.foldl (fun accR row =>
      let cellsOut := row.foldl (fun accC cell =>
        let parasOut := processParas (processParaTable old new) cell accC.2
        (accC.1 ++ [parasOut.1], parasOut.2)) ([], accR.2)
      (accR.1 ++ [cellsOut.1], cellsOut.2)) ([], accT.2)
    (accT.1 ++ [rowsOut.1], rowsOut.2)) ([], count)

/-- `/`-joined display of a resolved path (`str(path)`). -/
def pathDisplay (p : List String) : String :=
  "/" ++ String.intercalate "/" p

/-- `path.name`. -/
def pathName (p : List String) : String := p.getLastD ""

/-- The `Text not found` message of `_replace_text`, including the
truncation of patterns over 50 characters and that branch's trailing
space. -/
def textNotFoundMsg (old : String) : String :=
  if old.length > 50 then
    "Text not found: \x27" ++ takeChars old 50 ++ "...\x27 "
  else
    "Text not found: \x27" ++ old ++ "\x27"

/-- `DocxEditor._replace_text`: missing file fails; otherwise replace in
body paragraphs (with the spanning-runs fallback) and then in table
cells; zero replacements fail without saving, otherwise the document is
saved with a count message. -/
def replaceTextOp (path : List String) (doc? : Option DocxDocument)
    (op : DocumentOperation) : OperationResult × Option DocxDocument :=
  match doc? with
  | none => ({ success := false, output := "File not found: " ++ pathDisplay path }, none)
  | some doc =>
    let old := optTextOrEmpty op.old_text
    let new := optTextOrEmpty op.new_text
    let bodyOut := processParas (processPara old new) doc.paragraphs 0
    let tablesOut := processTables old new doc.tables bodyOut.2
    let total := tablesOut.2
    if total == 0 then
      ({ success := false, output := textNotFoundMsg old }, some doc)
    else
      ({ success := true,
         output := s!"Replaced {total} occurrence(s) in {pathName path}" },
       some { paragraphs := bodyOut.1, tables := tablesOut.1 })

/-- `DocxEditor._delete_text`: sets `operation.new_text = ""` in place
and delegates to `_replace_text`. -/
def deleteTextOp (path : List String) (doc? : Option DocxDocument)
    (op : DocumentOperation) : OperationResult × Option DocxDocument :=
  replaceTextOp path doc? { op with new_text := some "" }

/-- ANSI codes from `src/agent/editors/diff_display.py`. -/
def ansiRed : String := "\x1b[91m"

/-- ANSI green. -/
def ansiGreen : String := "\x1b[92m"

/-- ANSI cyan. -/
def ansiCyan : String := "\x1b[96m"

/-- ANSI dim. -/
def ansiDim : String := "\x1b[2m"

/-- ANSI reset. -/
def ansiReset : String := "\x1b[0m"

/-- What a Python f-string shows for a `str | None` value. -/
def optDisplay (o : Option String) : String :=
  match o with
  | some s => s
  | none => "None"

/-- Python `x or d` for `x : str | None` with a string default. -/
def strOr (o : Option String) (d : String) : String :=
  match o with
  | some s => if s == "" then d else s
  | none => d

/-- Truthiness of a `str | None` value. -/
def optStrTruthy (o : Option String) : Bool :=
  match o with
  | some s => s != ""
  | none => false

/-- `render_cell_diff` from `src/agent/editors/diff_display.py`:
one tagged line when only one side is present (`is None` tests), two
sub-lines when both are. -/
def renderCellDiff (cell : String) (oldVal newVal : Option String)
    (sheet : Option String) : String :=
  let location := if optStrTruthy sheet then optDisplay sheet ++ "!" ++ cell else cell
  match oldVal, newVal with
  | none, nv =>
      ansiCyan ++ location ++ ansiReset ++ ": " ++ ansiGreen ++ "+ " ++ optDisplay nv ++ ansiReset
  | some ov, none =>
      ansiCyan ++ location ++ ansiReset ++ ": " ++ ansiRed ++ "- " ++ ov ++ ansiReset
  | some ov, some nv =>
      ansiCyan ++ location ++ ansiReset ++ ":\n  " ++
      ansiRed ++ "- " ++ ov ++ ansiReset ++ "\n  " ++
      ansiGreen ++ "+ " ++ nv ++ ansiReset

/-- The `Range: ...` header location of `_render_range_diff`. -/
def rangeLocation (op : DocumentOperation) : String :=
  if optStrTruthy op.sheet then optDisplay op.sheet ++ "!" ++ optDisplay op.cell_range
  else optDisplay op.cell_range

/-- `XlsxEditor._render_range_diff` from `src/agent/editors/xlsx_editor.py`:
header line; when both values are lists, the differing pairs among the
first five positional row pairs, plus a note when either side has more
than five rows; otherwise the single-cell rendering of the stringified
values. -/
def renderRangeDiff (op : DocumentOperation) : String :=
  let header := ansiCyan ++ "Range: " ++ rangeLocation op ++ ansiReset
  match op.old_value, op.new_value with
  | .vlist oldRows, .vlist newRows =>
    let body := ((oldRows.take 5).zip (newRows.take 5)).enum.foldl
      (fun acc p =>
        if !(p.2.1.pyEqb p.2.2) then
          acc ++ [s!"  Row {p.1 + 1}:",
                  "    " ++ ansiRed ++ "- " ++ p.2.1.pyStr ++ ansiReset,
                  "    " ++ ansiGreen ++ "+ " ++ p.2.2.pyStr ++ ansiReset]
        else acc) []
    let note := if oldRows.length > 5 || newRows.length > 5 then
        ["  " ++ ansiDim ++ "... and more rows" ++ ansiReset]
      else []
    String.intercalate "\n" (header :: (body ++ note))
  | ov, nv =>
    String.intercalate "\n"
      [header,
       renderCellDiff (strOr op.cell_range "range") (some ov.pyStr) (some nv.pyStr) op.sheet]

/-- An `openpyxl` worksheet: a title and a cell store keyed by
(row, column), both 1-indexed. -/
structure Worksheet where
  title : String
  cells : List ((Int × Int) × PyVal)

/-- `ws.cell(...).value = v` / `ws[ref] = v`. -/
def Worksheet.setCell (ws : Worksheet) (r c : Int) (v : PyVal) : Worksheet :=
  { ws with cells := ((r, c), v) :: ws.cells.filter (fun e => e.1 != (r, c)) }

/-- `ws.delete_rows(i)`: drop row `i`, shift higher rows up. -/
def Worksheet.deleteRow (ws : Worksheet) (i : Int) : Worksheet :=
  let kept := ws.cells.filter (fun e => e.1.1 != i)
  let shifted := kept.map (fun e => if e.1.1 > i then ((e.1.1 - 1, e.1.2), e.2) else e)
  { ws with cells := shifted }

/-- `ws.insert_rows(i)`: shift rows at or below `i` down by one. -/
def Worksheet.insertRow (ws : Worksheet) (i : Int) : Worksheet :=
  let shifted := ws.cells.map (fun e => if e.1.1 ≥ i then ((e.1.1 + 1, e.1.2), e.2) else e)
  { ws with cells := shifted }

/-- An `openpyxl` workbook: sheets plus the active sheet title. -/
structure Workbook where
  sheets : List Worksheet
  active : String

/-- `wb.sheetnames`. -/
def Workbook.sheetnames (wb : Workbook) : List String :=
  wb.sheets.map (fun ws => ws.title)

/-- Apply an update to the named sheet. -/
def Workbook.updateSheet (wb : Workbook) (name : String)
    (f : Worksheet → Worksheet) : Workbook :=
  { wb with sheets := wb.sheets.map (fun ws => if ws.title == name then f ws else ws) }

/-- Column letters to 1-indexed column number (`column_index_from_string`). -/
def colIndex (letters : List Char) : Int :=
  letters.foldl (fun acc c => acc * 26 + (Int.ofNat c.toUpper.toNat - 64)) 0

/-- `coordinate_from_string` + `column_index_from_string`: split a
reference like `B2` into (row, column); malformed references make
`openpyxl` raise, modelled as `none`. -/
def parseCellRef (s : String) : Option (Int × Int) :=
  let chars := s.toList
  let letters := chars.takeWhile (fun c => c.isAlpha)
  let digits := chars.drop letters.length
  if letters.isEmpty || digits.isEmpty || !(digits.all (fun c => c.isDigit)) then none
  else
    match (String.mk digits).toNat? with
    | none => none
    | some r => some (Int.ofNat r, colIndex letters)

/-- The extra fields of the `XlsxOperation` dataclass; the procedures
receive `some` of these exactly when the operation `isinstance`-checks
as an `XlsxOperation`. -/
structure XlsxFields where
  start_row : Option Int := none
  end_row : Option Int := none
  start_col : Option Int := none
  end_col : Option Int := none
  formula : Option String := none

/-- `XlsxEditor._write_cell`: missing file, then sheet-name check, then
cell-reference presence, then the write; a malformed reference raises
(`Except.error`). -/
def writeCellOp (path : List String) (wb? : Option Workbook)
    (op : DocumentOperation) : Except String (OperationResult × Option Workbook) :=
  match wb? with
  | none => .ok ({ success := false, output := "File not found: " ++ pathDisplay path }, none)
  | some wb =>
    let sheetName := strOr op.sheet wb.active
    if !(wb.sheetnames.contains sheetName) then
      .ok ({ success := false, output := "Sheet not found: " ++ sheetName }, some wb)
    else if !(optStrTruthy op.cell) then
      .ok ({ success := false, output := "No cell reference provided" }, some wb)
    else
      let ref := optDisplay op.cell
      match parseCellRef ref with
      | none => .error ("invalid cell reference: " ++ ref)
      | some rc =>
        let wb1 := wb.updateSheet sheetName (fun ws => ws.setCell rc.1 rc.2 op.new_value)
        .ok ({ success := true,
               output := "Updated " ++ sheetName ++ "!" ++ ref ++ " = " ++ op.new_value.pyStr },
             some wb1)

/-- The positional write loop of `_write_range`: list rows become 2-D
blocks, scalar rows go down one column. -/
def writeRangeRows (ws : Worksheet) (startRow startCol : Int)
    (rows : List PyVal) : Worksheet :=
  (rows.enum.foldl (fun acc p =>
    match p.2 with
    | .vlist rowData =>
        rowData.enum.foldl (fun acc2 q =>
          acc2.setCell (startRow + Int.ofNat p.1) (startCol + Int.ofNat q.1) q.2) acc
    | v => acc.setCell (startRow + Int.ofNat p.1) startCol v) ws)

/-- `XlsxEditor._write_range`: missing file, the list-shape check
(before the sheet check), the sheet-name check, start-position
selection (`start_row` fields, else the `cell` coordinates, else
`A1`), then the positional write. -/
def writeRangeOp (path : List String) (wb? : Option Workbook)
    (op : DocumentOperation) (xf : Option XlsxFields) :
    Except String (OperationResult × Option Workbook) :=
  match wb? with
  | none => .ok ({ success := false, output := "File not found: " ++ pathDisplay path }, none)
  | some wb =>
    match op.new_value with
    | .vlist rows =>
      let sheetName := strOr op.sheet wb.active
      if !(wb.sheetnames.contains sheetName) then
        .ok ({ success := false, output := "Sheet not found: " ++ sheetName }, some wb)
      else
        let start? : Except String (Int × Int) :=
          match xf with
          | some f =>
            match f.start_row with
            | some r => .ok (r, (f.start_col.getD 0) |> fun c => if c == 0 then 1 else c)
            | none =>
              if optStrTruthy op.cell then
                match parseCellRef (optDisplay op.cell) with
                | none => .error ("invalid cell reference: " ++ optDisplay op.cell)
                | some rc => .ok rc
              else .ok (1, 1)
          | none =>
            if optStrTruthy op.cell then
              match parseCellRef (optDisplay op.cell) with
              | none => .error ("invalid cell reference: " ++ optDisplay op.cell)
              | some rc => .ok rc
            else .ok (1, 1)
        match start? with
        | .error e => .error e
        | .ok rc =>
          let wb1 := wb.updateSheet sheetName (fun ws => writeRangeRows ws rc.1 rc.2 rows)
          .ok ({ success := true, output := "Updated range in " ++ sheetName }, some wb1)
    | _ => .ok ({ success := false, output := "Range operation requires list of values" }, some wb)

/-- `XlsxEditor._add_formula`: sheet-name check, cell presence, formula
selection (`operation.formula` when truthy, else `new_value`), `=`
prefixing on the stringified formula, then the write. -/
def addFormulaOp (path : List String) (wb? : Option Workbook)
    (op : DocumentOperation) (xf : Option XlsxFields) :
    Except String (OperationResult × Option Workbook) :=
  match wb? with
  | none => .ok ({ success := false, output := "File not found: " ++ pathDisplay path }, none)
  | some wb =>
    let sheetName := strOr op.sheet wb.active
    if !(wb.sheetnames.contains sheetName) then
      .ok ({ success := false, output := "Sheet not found: " ++ sheetName }, some wb)
    else if !(optStrTruthy op.cell) then
      .ok ({ success := false, output := "No cell reference provided" }, some wb)
    else
      let ref := optDisplay op.cell
      let formula0 : PyVal :=
        match xf with
        | some f => if optStrTruthy f.formula then .vstr (optDisplay f.formula) else op.new_value
        | none => op.new_value
      let formula : PyVal :=
        if !(strStartsWith formula0.pyStr "=") then .vstr ("=" ++ formula0.pyStr) else formula0
      match parseCellRef ref with
      | none => .error ("invalid cell reference: " ++ ref)
      | some rc =>
        let wb1 := wb.updateSheet sheetName (fun ws => ws.setCell rc.1 rc.2 formula)
        .ok ({ success := true,
               output := "Added formula to " ++ sheetName ++ "!" ++ ref ++ ": " ++ formula.pyStr },
             some wb1)

/-- `XlsxEditor._delete_row`: sheet-name check, then the `start_row`
presence check (`is not None`), then the deletion. -/
def deleteRowOp (path : List String) (wb? : Option Workbook)
    (op : DocumentOperation) (xf : Option XlsxFields) :
    Except String (OperationResult × Option Workbook) :=
  match wb? with
  | none => .ok ({ success := false, output := "File not found: " ++ pathDisplay path }, none)
  | some wb =>
    let sheetName := strOr op.sheet wb.active
    if !(wb.sheetnames.contains sheetName) then
      .ok ({ success := false, output := "Sheet not found: " ++ sheetName }, some wb)
    else
      match xf.bind (fun f => f.start_row) with
      | none => .ok ({ success := false, output := "No row index provided" }, some wb)
      | some rowIdx =>
        let wb1 := wb.updateSheet sheetName (fun ws => ws.deleteRow rowIdx)
        .ok ({ success := true,
               output := s!"Deleted row {rowIdx} from {sheetName}" }, some wb1)

/-- `XlsxEditor._insert_row`: sheet-name check, `start_row` presence,
row insertion, then — when `new_value` is a truthy list — the fill of
the opened row. -/
def insertRowOp (path : List String) (wb? : Option Workbook)
    (op : DocumentOperation) (xf : Option XlsxFields) :
    Except String (OperationResult × Option Workbook) :=
  match wb? with
  | none => .ok ({ success := false, output := "File not found: " ++ pathDisplay path }, none)
  | some wb =>
    let sheetName := strOr op.sheet wb.active
    if !(wb.sheetnames.contains sheetName) then
      .ok ({ success := false, output := "Sheet not found: " ++ sheetName }, some wb)
    else
      match xf.bind (fun f => f.start_row) with
      | none => .ok ({ success := false, output := "No row index provided" }, some wb)
      | some rowIdx =>
        let fill : Worksheet → Worksheet := fun ws =>
          if op.new_value.truthy then
            match op.new_value with
            | .vlist vals =>
              vals.enum.foldl (fun acc p =>
                acc.setCell rowIdx (Int.ofNat p.1 + 1) p.2) (ws.insertRow rowIdx)
            | _ => ws.insertRow rowIdx
          else ws.insertRow rowIdx
        let wb1 := wb.updateSheet sheetName fill
        .ok ({ success := true,
               output := s!"Inserted row at position {rowIdx} in {sheetName}" }, some wb1)

/-- A session sequence of Ledger mutations. -/
inductive LedgerOp where
  | approve (fp : String)
  | reject (fp : String)
  | clearAll

/-- One Ledger mutation. -/
def stepLedger (o : LedgerOp) (t : ApprovalTracker) : ApprovalTracker :=
  match o with
  | .approve fp => t.rememberApproved fp
  | .reject fp => t.rememberRejected fp
  | .clearAll => t.clear

/-- Run a sequence of Ledger mutations. -/
def runLedger : List LedgerOp → ApprovalTracker → ApprovalTracker
  | [], t => t
  | o :: os, t => runLedger os (stepLedger o t)

lemma mem_setAdd (l : List String) (x y : String) :
    y ∈ setAdd l x ↔ y = x ∨ y ∈ l := by
  unfold setAdd
  by_cases h : l.contains x
  · simp only [h, if_true]
    simp only [List.contains_eq_any_beq, List.any_eq_true, beq_iff_eq] at h
    obtain ⟨a, ha, rfl⟩ := h
    constructor
    · exact Or.inr
    · rintro (rfl | hy) <;> assumption
  · rw [if_neg h]
    simp [List.mem_cons]

lemma mem_setDiscard (l : List String) (x y : String) :
    y ∈ setDiscard l x ↔ y ∈ l ∧ y ≠ x := by
  simp [setDiscard, List.mem_filter]

lemma isApproved_eq_decide (t : ApprovalTracker) (fp : String) :
    t.isApproved fp = decide (fp ∈ t.approved) := by
  simp [ApprovalTracker.isApproved]

lemma isRejected_eq_decide (t : ApprovalTracker) (fp : String) :
    t.isRejected fp = decide (fp ∈ t.rejected) := by
  simp [ApprovalTracker.isRejected]

lemma disjoint_step (t : ApprovalTracker)
    (hd : ∀ g, (t.isApproved g && t.isRejected g) = false) (o : LedgerOp) :
    ∀ g, ((stepLedger o t).isApproved g && (stepLedger o t).isRejected g) = false := by
  intro g
  have hg := hd g
  simp only [isApproved_eq_decide, isRejected_eq_decide, Bool.and_eq_false_iff,
    decide_eq_false_iff_not] at hg ⊢
  cases o with
  | approve fp =>
    simp only [stepLedger, ApprovalTracker.rememberApproved, mem_setAdd, mem_setDiscard]
    by_cases h : g = fp
    · subst h; right; simp
    · rcases hg with ha | hr
      · left
        rintro (rfl | hm)
        · exact h rfl
        · exact ha hm
      · right
        rintro ⟨hm, _⟩
        exact hr hm
  | reject fp =>
    simp only [stepLedger, ApprovalTracker.rememberRejected, mem_setAdd, mem_setDiscard]
    by_cases h : g = fp
    · subst h; left; simp
    · rcases hg with ha | hr
      · left
        rintro ⟨hm, _⟩
        exact ha hm
      · right
        rintro (rfl | hm)
        · exact h rfl
        · exact hr hm
  | clearAll =>
    simp [stepLedger, ApprovalTracker.clear]

lemma disjoint_run (ops : List LedgerOp) (t : ApprovalTracker)
    (hd : ∀ g, (t.isApproved g && t.isRejected g) = false) :
    ∀ g, ((runLedger ops t).isApproved g && (runLedger ops t).isRejected g) = false := by
  induction ops generalizing t with
  | nil => exact hd
  | cons o os ih => exact ih _ (disjoint_step t hd o)

/-- C6: after `remember_approved(fp)` the fingerprint is not rejected,
after `remember_rejected(fp)` it is not approved, `clear()` empties both
sets, and along any sequence of Ledger mutations starting from the empty
session Ledger the two sets stay disjoint. -/
theorem ledger_exclusivity :
    ∀ (t : ApprovalTracker) (fp : String),
      (t.rememberApproved fp).isRejected fp = false ∧
      (t.rememberRejected fp).isApproved fp = false ∧
      (∀ g, t.clear.isApproved g = false ∧ t.clear.isRejected g = false) ∧
      (∀ ops g, ((runLedger ops {}).isApproved g && (runLedger ops {}).isRejected g) = false) := by
  intro t fp
  refine ⟨?_, ?_, ?_, ?_⟩
  · simp [isRejected_eq_decide, ApprovalTracker.rememberApproved, mem_setDiscard]
  · simp [isApproved_eq_decide, ApprovalTracker.rememberRejected, mem_setDiscard]
  · intro g
    simp [ApprovalTracker.clear, ApprovalTracker.isApproved, ApprovalTracker.isRejected]
  · intro ops g
    refine disjoint_run ops {} ?_ g
    intro g2
    simp [ApprovalTracker.isApproved, ApprovalTracker.isRejected]

/-- C5: the fingerprint depends only on
`(kind, target_path, old_text, new_text, cell, old_value, new_value)`:
two operations agreeing on those seven fields fingerprint identically,
whatever their `description`, `metadata`, `location`, context fields,
`sheet` or `cell_range`. -/
theorem fingerprint_stability (a b : DocumentOperation)
    (ht : a.type = b.type) (hp : a.path = b.path)
    (ho : a.old_text = b.old_text) (hn : a.new_text = b.new_text)
    (hc : a.cell = b.cell) (hov : a.old_value = b.old_value)
    (hnv : a.new_value = b.new_value) :
    fingerprint a = fingerprint b := by
  simp [fingerprint, ht, hp, ho, hn, hc, hov, hnv]

/-- Witness for C5: two operations sharing the seven fingerprinted
fields but differing in description, location, context, sheet,
cell range and metadata fingerprint identically. -/
theorem fingerprint_stability_witness :
    fingerprint { type := .docxReplaceText, path := "a.docx", description := "first try",
                  old_text := some "March", new_text := some "April",
                  location := some "Paragraph 3", context_before := some "intro" } =
    fingerprint { type := .docxReplaceText, path := "a.docx", description := "second try",
                  old_text := some "March", new_text := some "April",
                  sheet := some "S", cell_range := some "A1:B2",
                  metadata := [("origin", "tool")] } :=
  fingerprint_stability _ _ rfl rfl rfl rfl rfl rfl rfl

/-- C10: the fingerprint conflates an absent field with an empty or
falsy one.  Replacing an absent `old_text`, `new_text` or `cell` by the
empty string, or an absent (`None`) `old_value` / `new_value` by any
falsy value, leaves the fingerprint unchanged; the `new_text` case is
exactly the in-place `operation.new_text = ""` mutation `_delete_text`
performs, so that mutation never forces re-approval. -/
theorem fingerprint_absent_falsy (op : DocumentOperation) (v : PyVal)
    (hv : v.truthy = false) :
    (op.old_text = none → fingerprint { op with old_text := some "" } = fingerprint op) ∧
    (op.new_text = none → fingerprint { op with new_text := some "" } = fingerprint op) ∧
    (op.cell = none → fingerprint { op with cell := some "" } = fingerprint op) ∧
    fingerprint { op with old_value := v } = fingerprint { op with old_value := .vnone } ∧
    fingerprint { op with new_value := v } = fingerprint { op with new_value := .vnone } := by
  refine ⟨?_, ?_, ?_, ?_, ?_⟩
  · intro h; simp [fingerprint, optTextOrEmpty, h]
  · intro h; simp [fingerprint, optTextOrEmpty, h]
  · intro h; simp [fingerprint, optTextOrEmpty, h]
  · have h0 : PyVal.vnone.truthy = false := rfl
    simp [fingerprint, PyVal.pyOr, hv, h0]
  · have h0 : PyVal.vnone.truthy = false := rfl
    simp [fingerprint, PyVal.pyOr, hv, h0]

/-- Witness for C10 at a concrete delete operation and the falsy value
`0`: the `None → ""` mutation of `new_text` and a `None → 0` change of
`old_value` both leave the fingerprint unchanged. -/
theorem fingerprint_absent_falsy_witness :
    (fingerprint { type := .docxDeleteText, path := "a.docx", old_text := some "x",
                   new_text := some "" } =
       fingerprint { type := .docxDeleteText, path := "a.docx", old_text := some "x" }) ∧
    (fingerprint { type := .docxDeleteText, path := "a.docx", old_text := some "x",
                   old_value := .vint 0 } =
       fingerprint { type := .docxDeleteText, path := "a.docx", old_text := some "x",
                     old_value := .vnone }) :=
  ⟨((fingerprint_absent_falsy
      { type := .docxDeleteText, path := "a.docx", old_text := some "x" }
      (.vint 0) rfl).2.1 rfl),
   ((fingerprint_absent_falsy
      { type := .docxDeleteText, path := "a.docx", old_text := some "x" }
      (.vint 0) rfl).2.2.2.1)⟩

/-- C9: `_delete_text` is `_replace_text` on the same operation with
`new_text` forced to the empty string — same result and same final
document state — and, since `_replace_text` reads `new_text or ""`,
the forcing is invisible when `new_text` was absent. -/
theorem delete_is_replace_empty (path : List String)
    (doc? : Option DocxDocument) (op : DocumentOperation) :
    deleteTextOp path doc? op = replaceTextOp path doc? { op with new_text := some "" } ∧
    (op.new_text = none → deleteTextOp path doc? op = replaceTextOp path doc? op) := by
  refine ⟨rfl, ?_⟩
  intro h
  cases doc? with
  | none => rfl
  | some doc =>
    simp [deleteTextOp, replaceTextOp, optTextOrEmpty, h]

/-- Witness for C9: deleting `"March"` from a concrete one-paragraph
document behaves exactly like the corresponding replace with empty
`new_text`. -/
theorem delete_is_replace_empty_witness :
    deleteTextOp ["ws", "a.docx"] (some ⟨[["The ", "March deadline"]], []⟩)
      { type := .docxDeleteText, path := "a.docx", old_text := some "March" } =
    replaceTextOp ["ws", "a.docx"] (some ⟨[["The ", "March deadline"]], []⟩)
      { type := .docxDeleteText, path := "a.docx", old_text := some "March" } :=
  (delete_is_replace_empty ["ws", "a.docx"] (some ⟨[["The ", "March deadline"]], []⟩)
    { type := .docxDeleteText, path := "a.docx", old_text := some "March" }).2 rfl

lemma applyPhase_fst_ok (rel : String) (t : ApprovalTracker) (tr : List Ev)
    (ar : Except String OperationResult) :
    ∃ r, (applyPhase rel t tr ar).1 = .ok r := by
  cases ar <;> exact ⟨_, rfl⟩

/-- C1 (amended): `execute` on an operation whose path resolves outside
the workspace root propagates the containment `RuntimeError` raised by
`_relative_path` — it does not return a result — while still performing
no diff rendering, no Decision Channel call, no prompt and no write and
leaving the Ledger untouched; for an operation whose path resolves
inside the root no exception escapes `execute` (apply-time exceptions
are converted to failure results). -/
theorem execute_containment_no_throw
    (root : List String) (auto : Bool) (env : ApprovalEnv)
    (ar : Except String OperationResult) (t : ApprovalTracker)
    (op : DocumentOperation) :
    (∀ e, relativePath root op.path = .error e →
        execute root auto env ar t op = (.error e, t, [])) ∧
    (∀ rel, relativePath root op.path = .ok rel →
        ∃ r, (execute root auto env ar t op).1 = .ok r) := by
  constructor
  · intro e he
    simp [execute, he]
  · intro rel hrel
    simp only [execute, hrel]
    by_cases h1 : t.isRejected (fingerprint op)
    · simp only [h1, if_true]
      exact ⟨_, rfl⟩
    · simp only [h1, Bool.false_eq_true, if_false]
      by_cases h2 : (!auto && !(t.isApproved (fingerprint op))) = true
      · simp only [h2, if_true]
        cases h3 : (requestApprovalEditor env).1
        · simp only [h3, Bool.false_eq_true, if_false]
          exact ⟨_, rfl⟩
        · simp only [h3, if_true]
          exact applyPhase_fst_ok _ _ _ ar
      · simp only [h2, if_false]
        exact applyPhase_fst_ok _ _ _ ar

/-- Counterexample to C1 as stated: with workspace root `/ws`, executing
an operation on `/tmp/x.xlsx` raises the containment error out of
`execute` (an `Except.error`, not a failure result with
`success = false`). -/
theorem execute_containment_counterexample :
    execute ["ws"] false ⟨false, .noUi none, none⟩ (.ok ⟨true, "ok", none, none⟩)
        {} { type := .xlsxWriteCell, path := "/tmp/x.xlsx", cell := some "A1" } =
      (.error "Operation outside workspace: /tmp/x.xlsx", {}, []) := by
  rfl

/-- Witness for C1 (amended), both halves at concrete inputs: the
outside path `/tmp/x.docx` makes `execute` propagate the error with an
empty call trace, and the inside path `a.docx` yields an ordinary
result. -/
theorem execute_containment_no_throw_witness :
    (execute ["ws"] false ⟨false, .noUi none, none⟩ (.ok ⟨true, "ok", none, none⟩)
        {} { type := .docxReplaceText, path := "/tmp/x.docx" } =
      (.error "Operation outside workspace: /tmp/x.docx", {}, [])) ∧
    (∃ r, (execute ["ws"] false ⟨false, .noUi none, none⟩ (.ok ⟨true, "ok", none, none⟩)
        {} { type := .docxReplaceText, path := "a.docx" }).1 = .ok r) :=
  ⟨(execute_containment_no_throw ["ws"] false ⟨false, .noUi none, none⟩
      (.ok ⟨true, "ok", none, none⟩) {} { type := .docxReplaceText, path := "/tmp/x.docx" }).1
      "Operation outside workspace: /tmp/x.docx" (by rfl),
   (execute_containment_no_throw ["ws"] false ⟨false, .noUi none, none⟩
      (.ok ⟨true, "ok", none, none⟩) {} { type := .docxReplaceText, path := "a.docx" }).2
      "a.docx" (by rfl)⟩

/-- C3 (amended): for an operation whose path resolves inside the
workspace root and whose fingerprint is in the rejected set, `execute`
returns the failure result `Operation was previously rejected.`
immediately — unchanged Ledger and an empty call trace, so no diff
rendering, no Decision Channel submission, no prompt and no write —
for any auto-approve setting.  (As stated the claim also covered
operations whose path resolves outside the root, where `execute`
instead raises the containment error.) -/
theorem execute_rejected_short_circuit
    (root : List String) (auto : Bool) (env : ApprovalEnv)
    (ar : Except String OperationResult) (t : ApprovalTracker)
    (op : DocumentOperation) (rel : String)
    (hres : relativePath root op.path = .ok rel)
    (hrej : t.isRejected (fingerprint op) = true) :
    execute root auto env ar t op =
      (.ok { success := false, output := "Operation was previously rejected.",
             path := some rel }, t, []) := by
  simp [execute, hres, hrej]

/-- Counterexample to C3 as stated: an operation with a rejected
fingerprint but a path resolving outside the root (`../../etc/hosts`
under `/home/user/docs`) makes `execute` raise the containment error
instead of returning the `previously rejected` failure result. -/
theorem execute_rejected_counterexample :
    (ApprovalTracker.isRejected
      ⟨[], [fingerprint { type := .docxReplaceText, path := "../../etc/hosts", old_text := some "x" }]⟩
      (fingerprint { type := .docxReplaceText, path := "../../etc/hosts", old_text := some "x" }) = true) ∧
    execute ["home", "user", "docs"] true ⟨false, .noUi none, none⟩ (.ok ⟨true, "ok", none, none⟩)
        ⟨[], [fingerprint { type := .docxReplaceText, path := "../../etc/hosts", old_text := some "x" }]⟩
        { type := .docxReplaceText, path := "../../etc/hosts", old_text := some "x" } =
      (.error "Operation outside workspace: ../../etc/hosts",
       ⟨[], [fingerprint { type := .docxReplaceText, path := "../../etc/hosts", old_text := some "x" }]⟩, []) := by
  exact ⟨by rfl, by rfl⟩

/-- Witness for C3 (amended): a rejected in-workspace write, executed
with auto-approve enabled, still fails as previously rejected with no
calls recorded. -/
theorem execute_rejected_short_circuit_witness :
    execute ["ws"] true ⟨true, .terminalConsole (some "y"), some "y"⟩
        (.ok ⟨true, "ok", none, none⟩)
        ⟨[], [fingerprint { type := .xlsxWriteCell, path := "b.xlsx", cell := some "B2",
                            new_value := .vstr "42" }]⟩
        { type := .xlsxWriteCell, path := "b.xlsx", cell := some "B2",
          new_value := .vstr "42" } =
      (.ok { success := false, output := "Operation was previously rejected.",
             path := some "b.xlsx" },
       ⟨[], [fingerprint { type := .xlsxWriteCell, path := "b.xlsx", cell := some "B2",
                           new_value := .vstr "42" }]⟩, []) :=
  execute_rejected_short_circuit ["ws"] true ⟨true, .terminalConsole (some "y"), some "y"⟩
    (.ok ⟨true, "ok", none, none⟩) _ _ "b.xlsx" (by rfl) (by rfl)

/-- C4 (amended): for an operation whose path resolves inside the
workspace root and whose fingerprint is in the approved set (and, by
the Ledger invariant, not in the rejected set), `execute` proceeds
straight to the apply step: its call trace is exactly `[applyCall]` —
no diff rendering and no Decision Channel submission or prompt — and
the Ledger re-records the approval.  (As stated the claim also covered
operations whose path resolves outside the root, where `execute`
raises the containment error and applies nothing.) -/
theorem execute_no_double_prompt
    (root : List String) (auto : Bool) (env : ApprovalEnv)
    (ar : Except String OperationResult) (t : ApprovalTracker)
    (op : DocumentOperation) (rel : String)
    (hres : relativePath root op.path = .ok rel)
    (happ : t.isApproved (fingerprint op) = true)
    (hrej : t.isRejected (fingerprint op) = false) :
    execute root auto env ar t op =
      applyPhase rel (t.rememberApproved (fingerprint op)) [] ar ∧
    (execute root auto env ar t op).2.2 = [Ev.applyCall] := by
  have h1 : execute root auto env ar t op =
      applyPhase rel (t.rememberApproved (fingerprint op)) [] ar := by
    simp [execute, hres, hrej, happ]
  refine ⟨h1, ?_⟩
  rw [h1]
  cases ar <;> rfl

/-- Counterexample to C4 as stated: an operation with an approved
fingerprint but a path resolving outside the root is not applied —
`execute` raises the containment error with an empty call trace. -/
theorem execute_no_double_prompt_counterexample :
    (ApprovalTracker.isApproved
      ⟨[fingerprint { type := .docxInsertText, path := "/etc/motd", new_text := some "hi" }], []⟩
      (fingerprint { type := .docxInsertText, path := "/etc/motd", new_text := some "hi" }) = true) ∧
    execute ["ws"] false ⟨false, .noUi none, none⟩ (.ok ⟨true, "ok", none, none⟩)
        ⟨[fingerprint { type := .docxInsertText, path := "/etc/motd", new_text := some "hi" }], []⟩
        { type := .docxInsertText, path := "/etc/motd", new_text := some "hi" } =
      (.error "Operation outside workspace: /etc/motd",
       ⟨[fingerprint { type := .docxInsertText, path := "/etc/motd", new_text := some "hi" }], []⟩, []) := by
  exact ⟨by rfl, by rfl⟩

/-- Witness for C4 (amended): re-executing an approved in-workspace
write goes straight to the apply step with trace `[applyCall]`. -/
theorem execute_no_double_prompt_witness :
    execute ["ws"] false ⟨true, .textualApp true (some false) none, none⟩
        (.ok ⟨true, "ok", none, none⟩)
        ⟨[fingerprint { type := .xlsxWriteCell, path := "b.xlsx", cell := some "B2",
                        new_value := .vstr "42" }], []⟩
        { type := .xlsxWriteCell, path := "b.xlsx", cell := some "B2",
          new_value := .vstr "42" } =
      applyPhase "b.xlsx"
        (ApprovalTracker.rememberApproved
          ⟨[fingerprint { type := .xlsxWriteCell, path := "b.xlsx", cell := some "B2",
                          new_value := .vstr "42" }], []⟩
          (fingerprint { type := .xlsxWriteCell, path := "b.xlsx", cell := some "B2",
                         new_value := .vstr "42" }))
        [] (.ok ⟨true, "ok", none, none⟩) :=
  (execute_no_double_prompt ["ws"] false ⟨true, .textualApp true (some false) none, none⟩
    (.ok ⟨true, "ok", none, none⟩) _ _ "b.xlsx" (by rfl) (by rfl) (by rfl)).1

/-- C2 (amended): when the Textual approval wait times out (the
request's event is never signalled within the 300 s timeout),
`request_approval` returns `False`, and `execute` — unable to tell a
timeout from an explicit rejection — records the fingerprint in the
Ledger's rejected set (not the approved set); re-executing the
identical operation therefore does not prompt again but fails
immediately as previously rejected.  (The claim stated the opposite:
that the fingerprint would be in neither set and a retry would prompt
again.) -/
theorem execute_timeout_remembers_rejected
    (root : List String) (env : ApprovalEnv) (ar : Except String OperationResult)
    (t : ApprovalTracker) (op : DocumentOperation) (rel : String) (fb : Option String)
    (hres : relativePath root op.path = .ok rel)
    (hcb : env.callbackEnabled = true)
    (hch : env.channel = .textualApp true none fb)
    (happ : t.isApproved (fingerprint op) = false)
    (hrej : t.isRejected (fingerprint op) = false) :
    execute root false env ar t op =
      (.ok { success := false, output := "Operation rejected by user.", path := some rel },
       t.rememberRejected (fingerprint op), [Ev.renderDiff, Ev.submitCall]) ∧
    (t.rememberRejected (fingerprint op)).isRejected (fingerprint op) = true ∧
    (t.rememberRejected (fingerprint op)).isApproved (fingerprint op) = false ∧
    execute root false env ar (t.rememberRejected (fingerprint op)) op =
      (.ok { success := false, output := "Operation was previously rejected.", path := some rel },
       t.rememberRejected (fingerprint op), []) := by
  have hfalse : requestApprovalEditor env = (false, [Ev.renderDiff, Ev.submitCall]) := by
    simp [requestApprovalEditor, hcb, hch, requestApprovalChannel]
  have hmem : (t.rememberRejected (fingerprint op)).isRejected (fingerprint op) = true := by
    simp [ApprovalTracker.rememberRejected, isRejected_eq_decide, mem_setAdd]
  refine ⟨?_, hmem, ?_, ?_⟩
  · simp [execute, hres, hrej, happ, hfalse]
  · simp [ApprovalTracker.rememberRejected, isApproved_eq_decide, mem_setDiscard]
  · simp [execute, hres, hmem]

/-- Counterexample to C2 as stated: after a timed-out prompt the
fingerprint IS in the rejected set, and re-executing the identical
operation does not prompt again (its call trace is empty). -/
theorem execute_timeout_counterexample :
    ((execute ["ws"] false ⟨true, .textualApp true none none, none⟩
        (.ok ⟨true, "ok", none, none⟩) {}
        { type := .xlsxWriteCell, path := "b2.xlsx", cell := some "C3",
          old_value := .vstr "1", new_value := .vstr "2" }).2.1.isRejected
      (fingerprint { type := .xlsxWriteCell, path := "b2.xlsx", cell := some "C3",
                     old_value := .vstr "1", new_value := .vstr "2" }) = true) ∧
    ((execute ["ws"] false ⟨true, .textualApp true none none, none⟩
        (.ok ⟨true, "ok", none, none⟩)
        (execute ["ws"] false ⟨true, .textualApp true none none, none⟩
          (.ok ⟨true, "ok", none, none⟩) {}
          { type := .xlsxWriteCell, path := "b2.xlsx", cell := some "C3",
            old_value := .vstr "1", new_value := .vstr "2" }).2.1
        { type := .xlsxWriteCell, path := "b2.xlsx", cell := some "C3",
          old_value := .vstr "1", new_value := .vstr "2" }).2.2 = []) := by
  exact ⟨by rfl, by rfl⟩

/-- Witness for C2 (amended) at a concrete timed-out cell write from an
undecided Ledger. -/
theorem execute_timeout_remembers_rejected_witness :
    execute ["ws"] false ⟨true, .textualApp true none none, none⟩
        (.ok ⟨true, "ok", none, none⟩) {}
        { type := .xlsxWriteCell, path := "b.xlsx", cell := some "B2",
          old_value := .vstr "0", new_value := .vstr "42" } =
      (.ok { success := false, output := "Operation rejected by user.", path := some "b.xlsx" },
       ApprovalTracker.rememberRejected {}
         (fingerprint { type := .xlsxWriteCell, path := "b.xlsx", cell := some "B2",
                        old_value := .vstr "0", new_value := .vstr "42" }),
       [Ev.renderDiff, Ev.submitCall]) :=
  (execute_timeout_remembers_rejected ["ws"] ⟨true, .textualApp true none none, none⟩
    (.ok ⟨true, "ok", none, none⟩) {}
    { type := .xlsxWriteCell, path := "b.xlsx", cell := some "B2",
      old_value := .vstr "0", new_value := .vstr "42" }
    "b.xlsx" none (by rfl) (by rfl) (by rfl) (by rfl) (by rfl)).1

/-- C7 (amended): each spreadsheet physical-write procedure, given an
existing workbook and a named sheet that is not in it (for write-range,
with a list-shaped `new_value`, since its list check precedes the sheet
check), returns the failure result `Sheet not found: <name>` and leaves
the workbook unchanged.  (As stated the claim also required the message
to echo the list of available sheet names, which it does not.) -/
theorem sheet_missing_fails_all
    (path : List String) (wb : Workbook) (op : DocumentOperation)
    (xf : Option XlsxFields) (s : String)
    (hs : strOr op.sheet wb.active = s)
    (hmiss : wb.sheetnames.contains s = false) :
    writeCellOp path (some wb) op =
      .ok ({ success := false, output := "Sheet not found: " ++ s }, some wb) ∧
    (∀ rows, op.new_value = .vlist rows →
      writeRangeOp path (some wb) op xf =
        .ok ({ success := false, output := "Sheet not found: " ++ s }, some wb)) ∧
    addFormulaOp path (some wb) op xf =
      .ok ({ success := false, output := "Sheet not found: " ++ s }, some wb) ∧
    deleteRowOp path (some wb) op xf =
      .ok ({ success := false, output := "Sheet not found: " ++ s }, some wb) ∧
    insertRowOp path (some wb) op xf =
      .ok ({ success := false, output := "Sheet not found: " ++ s }, some wb) := by
  have hm : s ∉ wb.sheetnames := by simpa using hmiss
  refine ⟨?_, ?_, ?_, ?_, ?_⟩
  · simp [writeCellOp, hs, hm]
  · intro rows hrows
    simp [writeRangeOp, hs, hm, hrows]
  · simp [addFormulaOp, hs, hm]
  · simp [deleteRowOp, hs, hm]
  · simp [insertRowOp, hs, hm]

/-- Counterexample to C7 as stated: with available sheets `Data` and
`Summary`, writing to missing sheet `Missing` fails with
`Sheet not found: Missing` — a message that names neither available
sheet, so it does not echo the list of available sheet names. -/
theorem sheet_missing_message_counterexample :
    writeCellOp ["ws", "b.xlsx"]
        (some { sheets := [⟨"Data", []⟩, ⟨"Summary", []⟩], active := "Data" })
        { type := .xlsxWriteCell, path := "b.xlsx", sheet := some "Missing",
          cell := some "B2", new_value := .vstr "42" } =
      .ok ({ success := false, output := "Sheet not found: Missing" },
           some { sheets := [⟨"Data", []⟩, ⟨"Summary", []⟩], active := "Data" }) ∧
    pyIn "Data" "Sheet not found: Missing" = false ∧
    pyIn "Summary" "Sheet not found: Missing" = false := by
  exact ⟨by rfl, by rfl, by rfl⟩

/-- Witness for C7 (amended): the five procedures at a concrete
workbook with sheets `Data`/`Summary` and the missing sheet `Missing`. -/
theorem sheet_missing_fails_all_witness :
    writeCellOp ["ws", "b.xlsx"]
        (some { sheets := [⟨"Data", []⟩, ⟨"Summary", []⟩], active := "Data" })
        { type := .xlsxWriteCell, path := "b.xlsx", sheet := some "Missing",
          cell := some "B2", new_value := .vlist [.vint 1] } =
      .ok ({ success := false, output := "Sheet not found: Missing" },
           some { sheets := [⟨"Data", []⟩, ⟨"Summary", []⟩], active := "Data" }) ∧
    writeRangeOp ["ws", "b.xlsx"]
        (some { sheets := [⟨"Data", []⟩, ⟨"Summary", []⟩], active := "Data" })
        { type := .xlsxWriteCell, path := "b.xlsx", sheet := some "Missing",
          cell := some "B2", new_value := .vlist [.vint 1] } none =
      .ok ({ success := false, output := "Sheet not found: Missing" },
           some { sheets := [⟨"Data", []⟩, ⟨"Summary", []⟩], active := "Data" }) :=
  ⟨(sheet_missing_fails_all ["ws", "b.xlsx"]
      { sheets := [⟨"Data", []⟩, ⟨"Summary", []⟩], active := "Data" }
      { type := .xlsxWriteCell, path := "b.xlsx", sheet := some "Missing",
        cell := some "B2", new_value := .vlist [.vint 1] }
      none "Missing" (by rfl) (by rfl)).1,
   (sheet_missing_fails_all ["ws", "b.xlsx"]
      { sheets := [⟨"Data", []⟩, ⟨"Summary", []⟩], active := "Data" }
      { type := .xlsxWriteCell, path := "b.xlsx", sheet := some "Missing",
        cell := some "B2", new_value := .vlist [.vint 1] }
      none "Missing" (by rfl) (by rfl)).2.1 [.vint 1] rfl⟩

lemma foldl_if_append {α β : Type} (p : α → Bool) (f : α → List β)
    (l : List α) (init : List β) :
    l.foldl (fun acc x => if p x then acc ++ f x else acc) init =
      init ++ (l.filter p).flatMap f := by
  induction l generalizing init with
  | nil => simp
  | cons x xs ih =>
    by_cases h : p x
    · simp [h, ih, List.append_assoc]
    · simp [h, ih]

/-- C8 (amended): when both `old_value` and `new_value` are ordered row
sequences, the range diff is the `Range:` header naming the range,
followed by a removed/added pair for each differing pair among the
first five positional row pairs (the zip of the five-row prefixes,
under Python `!=`), followed by the truncation note exactly when either
side has more than five rows.  (As stated the claim promised the first
five differing pairs wherever they occur, and a truncation note also
whenever either side has more rows than were shown, neither of which
the renderer does.) -/
theorem range_diff_structure (op : DocumentOperation)
    (oldRows newRows : List PyVal)
    (ho : op.old_value = .vlist oldRows) (hn : op.new_value = .vlist newRows) :
    renderRangeDiff op = String.intercalate "\n"
      ((ansiCyan ++ "Range: " ++ rangeLocation op ++ ansiReset) ::
       ((((oldRows.take 5).zip (newRows.take 5)).enum.filter
           (fun p => !(p.2.1.pyEqb p.2.2))).flatMap
         (fun p => [s!"  Row {p.1 + 1}:",
                    "    " ++ ansiRed ++ "- " ++ p.2.1.pyStr ++ ansiReset,
                    "    " ++ ansiGreen ++ "+ " ++ p.2.2.pyStr ++ ansiReset]) ++
        (if oldRows.length > 5 || newRows.length > 5 then
           ["  " ++ ansiDim ++ "... and more rows" ++ ansiReset]
         else []))) := by
  simp only [renderRangeDiff, ho, hn]
  rw [foldl_if_append (fun p => !(p.2.1.pyEqb p.2.2))
    (fun p => [s!"  Row {p.1 + 1}:",
               "    " ++ ansiRed ++ "- " ++ p.2.1.pyStr ++ ansiReset,
               "    " ++ ansiGreen ++ "+ " ++ p.2.2.pyStr ++ ansiReset])
    ((oldRows.take 5).zip (newRows.take 5)).enum []]
  simp

/-- Counterexample to C8 as stated: old rows `[[1],[1],[1]]` against new
rows `[[1],[1],[1],[2]]` — the new side has four rows while zero row
pairs are shown (the three compared pairs are equal), yet the renderer
emits only the header with no truncation note, although the claim
requires a note whenever either side has more rows than shown. -/
theorem range_diff_counterexample :
    renderRangeDiff
        { type := .xlsxWriteRange, path := "b.xlsx", sheet := some "S",
          cell_range := some "A1:A4",
          old_value := .vlist [.vlist [.vint 1], .vlist [.vint 1], .vlist [.vint 1]],
          new_value := .vlist [.vlist [.vint 1], .vlist [.vint 1], .vlist [.vint 1],
                               .vlist [.vint 2]] } =
      "\x1b[96mRange: S!A1:A4\x1b[0m" ∧
    pyIn "more rows" "\x1b[96mRange: S!A1:A4\x1b[0m" = false ∧
    pyIn "Row" "\x1b[96mRange: S!A1:A4\x1b[0m" = false := by
  exact ⟨by rfl, by rfl, by rfl⟩

/-- Witness for C8 (amended) at a concrete two-row range write: one
differing pair is rendered and no truncation note appears. -/
theorem range_diff_structure_witness :
    renderRangeDiff
        { type := .xlsxWriteRange, path := "b.xlsx", sheet := some "S",
          cell_range := some "A1:B2",
          old_value := .vlist [.vlist [.vint 0, .vint 1], .vlist [.vint 7]],
          new_value := .vlist [.vlist [.vint 42, .vint 1], .vlist [.vint 7]] } =
      String.intercalate "\n"
        ((ansiCyan ++ "Range: " ++
            rangeLocation
              { type := .xlsxWriteRange, path := "b.xlsx", sheet := some "S",
                cell_range := some "A1:B2",
                old_value := .vlist [.vlist [.vint 0, .vint 1], .vlist [.vint 7]],
                new_value := .vlist [.vlist [.vint 42, .vint 1], .vlist [.vint 7]] } ++
            ansiReset) ::
         (((([PyVal.vlist [.vint 0, .vint 1], PyVal.vlist [.vint 7]].take 5).zip
              ([PyVal.vlist [.vint 42, .vint 1], PyVal.vlist [.vint 7]].take 5)).enum.filter
             (fun p => !(p.2.1.pyEqb p.2.2))).flatMap
           (fun p => [s!"  Row {p.1 + 1}:",
                      "    " ++ ansiRed ++ "- " ++ p.2.1.pyStr ++ ansiReset,
                      "    " ++ ansiGreen ++ "+ " ++ p.2.2.pyStr ++ ansiReset]) ++
          (if [PyVal.vlist [.vint 0, .vint 1], PyVal.vlist [.vint 7]].length > 5 ||
              [PyVal.vlist [.vint 42, .vint 1], PyVal.vlist [.vint 7]].length > 5 then
             ["  " ++ ansiDim ++ "... and more rows" ++ ansiReset]
           else []))) :=
  range_diff_structure
    { type := .xlsxWriteRange, path := "b.xlsx", sheet := some "S",
      cell_range := some "A1:B2",
      old_value := .vlist [.vlist [.vint 0, .vint 1], .vlist [.vint 7]],
      new_value := .vlist [.vlist [.vint 42, .vint 1], .vlist [.vint 7]] }
    [.vlist [.vint 0, .vint 1], .vlist [.vint 7]]
    [.vlist [.vint 42, .vint 1], .vlist [.vint 7]] (by rfl) (by rfl)
